import Mathlib

/-!
Shallow embedding of the audio playback and visualization engine of
`src/components/AudioPlayer.tsx` (LYRICAL Studio).

The component holds React state and refs:
  `isPlaying` (state), `sourceRef`, `bassFilterRef`, `analyserRef`,
  `startTimeRef`, `pausedTimeRef`, `animationFrameRef` (refs),
and receives props `audioBuffer`, `audioContext`, `bassBoost`.

We model the component as a record `PlayerState` and each handler /
effect of the source as a state-transformer.  Wall-clock time
(`audioContext.currentTime`) is a rational `now` advanced by explicit
time-passage events.  Web Audio node objects are modelled by small
records carrying exactly the attributes the source sets on them
(`filter.type`, `filter.frequency.value`, `filter.gain`,
`analyser.fftSize`) plus bookkeeping flags (`stopped`, `disconnected`)
reflecting the `stop()` / `disconnect()` commands the source issues.
-/

set_option autoImplicit false

namespace LyricalStudio

/-- JavaScript `%` on rationals.  For the operands appearing in the
source (`pausedTimeRef.current % audioBuffer.duration`, both
non-negative with positive divisor) truncating division coincides with
floor division, so we use the floor form. -/
def jsMod (a b : ℚ) : ℚ := a - b * (⌊a / b⌋ : ℚ)

/-- A decoded `AudioBuffer`.  The source only reads its `duration`
(seconds); we carry it directly. -/
structure Buffer where
  duration : ℚ
deriving DecidableEq, Repr

/-- An `AudioBufferSourceNode` created by `playAudio`: the buffer
assigned to it, the offset passed to `start(0, offset)`, the wall-clock
time at which `start` was issued, and flags recording the `stop()` /
`disconnect()` commands issued on it and whether its `onended` callback
has already fired. -/
structure SourceNode where
  buffer : Buffer
  startOffset : ℚ
  startedAtWall : ℚ
  stopped : Bool
  disconnected : Bool
  endedFired : Bool
deriving DecidableEq, Repr

/-- Values of `BiquadFilterNode.type` used by the source. -/
inductive FilterKind
  | lowshelf
deriving DecidableEq, Repr

/-- The last command issued to an `AudioParam` (the filter's `gain`):
either a direct assignment `gain.value = v`, or
`gain.setTargetAtTime v startT timeConstant` (smoothed approach). -/
inductive GainCtl
  | value (v : ℚ)
  | target (v startT timeConstant : ℚ)
deriving DecidableEq, Repr

/-- The `BiquadFilterNode` created by `playAudio`:
`filter.type = 'lowshelf'`, `filter.frequency.value = 200`,
`filter.gain` as last commanded, and a disconnect flag. -/
structure FilterNode where
  kind : FilterKind
  frequency : ℚ
  gain : GainCtl
  disconnected : Bool
deriving DecidableEq, Repr

/-- The `AnalyserNode` created by `playAudio` (`analyser.fftSize = 256`)
with a disconnect flag. -/
structure AnalyserNode where
  fftSize : Nat
  disconnected : Bool
deriving DecidableEq, Repr

/-- The whole component state: props (`audioBuffer`, presence of
`audioContext`, `bassBoost`), React state `isPlaying`, the refs, the
ambient clock `now` (= `audioContext.currentTime`), and bookkeeping for
the animation-frame queue (`framePending`: a `requestAnimationFrame`
callback is scheduled; ids are handed out from `nextFrameId`, starting
at 1 so that a real id is never 0) and a counter of executed render
ticks (`renderCount`). -/
structure PlayerState where
  audioBuffer : Option Buffer
  hasCtx : Bool
  ctxRunning : Bool
  now : ℚ
  isPlaying : Bool
  sourceRef : Option SourceNode
  bassFilterRef : Option FilterNode
  analyserRef : Option AnalyserNode
  startTimeRef : ℚ
  pausedTimeRef : ℚ
  animationFrameRef : Nat
  framePending : Bool
  nextFrameId : Nat
  hasCanvas : Bool
  bassBoost : ℚ
  renderCount : Nat
deriving DecidableEq, Repr

/-- Models `animationFrameRef.current = requestAnimationFrame(draw)`. -/
def scheduleFrame (s : PlayerState) : PlayerState :=
  { s with animationFrameRef := s.nextFrameId, framePending := true,
           nextFrameId := s.nextFrameId + 1 }

/-- Body of `draw` inside `visualize`: bail out when `!isPlaying`
(line 120), otherwise reschedule itself (line 122), bail out when the
analyser ref is gone (line 123), otherwise read the analyser and render
one frame of bars.  Returns the new state and whether a render was
performed. -/
def drawBody (s : PlayerState) : PlayerState × Bool :=
  if s.isPlaying = false then (s, false)
  else
    let s' := scheduleFrame s
    match s'.analyserRef with
    | none => (s', false)
    | some _ => ({ s' with renderCount := s'.renderCount + 1 }, true)

/-- A scheduled animation-frame callback firing: it only runs when one
is pending, and firing consumes the pending slot before `draw` runs. -/
def drawTick (s : PlayerState) : PlayerState × Bool :=
  if s.framePending then drawBody { s with framePending := false }
  else (s, false)

/-- Function `visualize()`: bails out when the analyser ref or the canvas is
missing (lines 110-114), then calls `draw()` synchronously. -/
def visualize (s : PlayerState) : PlayerState :=
  match s.analyserRef, s.hasCanvas with
  | some _, true => (drawBody s).1
  | _, _ => s

/-- Handler `playAudio` (lines 35-81): early return without a buffer or
context; resume a suspended context; build the session graph
source → lowshelf filter (200 Hz, gain `bassBoost * 1.5`) →
analyser (fftSize 256) → destination; start the source at
`pausedTimeRef.current % audioBuffer.duration`; record
`startTimeRef.current = audioContext.currentTime - offset`; set
`isPlaying`; register `onended` (modelled by `onEnded` below); start the
visualization loop. -/
def playAudio (s : PlayerState) : PlayerState :=
  match s.audioBuffer, s.hasCtx with
  | some buf, true =>
    let s := { s with ctxRunning := true }
    let offset := jsMod s.pausedTimeRef buf.duration
    let source : SourceNode :=
      { buffer := buf, startOffset := offset, startedAtWall := s.now,
        stopped := false, disconnected := false, endedFired := false }
    let filter : FilterNode :=
      { kind := .lowshelf, frequency := 200,
        gain := .value (s.bassBoost * (3 / 2)), disconnected := false }
    let analyser : AnalyserNode := { fftSize := 256, disconnected := false }
    let s :=
      { s with sourceRef := some source, bassFilterRef := some filter,
               analyserRef := some analyser,
               startTimeRef := s.now - offset, isPlaying := true }
    visualize s
  | _, _ => s

/-- The `onended` callback registered in `playAudio` (lines 70-78): it
fires even on `stop()`, so it recomputes
`elapsed = audioContext.currentTime - startTimeRef.current` and only
when `elapsed >= duration` (the captured buffer's duration) does it set
`isPlaying` false and reset `pausedTimeRef`. -/
def onEnded (s : PlayerState) : PlayerState :=
  match s.sourceRef with
  | none => s
  | some src =>
    let s := { s with sourceRef := some { src with endedFired := true } }
    if src.buffer.duration ≤ s.now - s.startTimeRef then
      { s with isPlaying := false, pausedTimeRef := 0 }
    else s

/-- Handler `pauseAudio` (lines 83-93): only when a source exists, `isPlaying`,
and a context exists: stop and disconnect the source, capture
`pausedTimeRef.current = audioContext.currentTime - startTimeRef.current`,
clear `isPlaying`, and cancel the stored animation frame when its id is
non-zero. -/
def pauseAudio (s : PlayerState) : PlayerState :=
  match s.sourceRef, s.isPlaying, s.hasCtx with
  | some src, true, true =>
    let src := { src with stopped := true, disconnected := true }
    let s :=
      { s with sourceRef := some src,
               pausedTimeRef := s.now - s.startTimeRef,
               isPlaying := false }
    if s.animationFrameRef ≠ 0 then { s with framePending := false } else s
  | _, _, _ => s

/-- The platform halt command `source.stop()`, modelled pessimistically:
it reports an error when issued on an already-halted source (the case
the source code's `try/catch` exists to absorb), and otherwise marks the
source stopped. -/
def sourceStopCmd (src : SourceNode) : Except Unit SourceNode :=
  if src.stopped then .error () else .ok { src with stopped := true }

/-- Handler `stopAudio` (lines 95-107): when a source exists, `try stop()`
swallowing any error, then disconnect it; cancel the stored animation
frame when its id is non-zero; clear `isPlaying`; reset
`pausedTimeRef`. -/
def stopAudio (s : PlayerState) : PlayerState :=
  let s :=
    match s.sourceRef with
    | some src =>
      let src :=
        (match sourceStopCmd src with
         | .ok src' => src'
         | .error _ => src)
      { s with sourceRef := some { src with disconnected := true } }
    | none => s
  let s := if s.animationFrameRef ≠ 0 then { s with framePending := false } else s
  { s with isPlaying := false, pausedTimeRef := 0 }

/-- The `[audioBuffer]` effect (lines 21-25), run after the prop has
changed to the new value: `stopAudio()` then `pausedTimeRef.current = 0`. -/
def onNewBuffer (s : PlayerState) (b : Option Buffer) : PlayerState :=
  let s := { s with audioBuffer := b }
  let s := stopAudio s
  { s with pausedTimeRef := 0 }

/-- The `[bassBoost]` effect (lines 28-33), run after the prop has
changed: when a filter ref and a context exist, retarget the live
filter's gain with `setTargetAtTime(bassBoost * 1.5, currentTime, 0.1)`. -/
def setBassBoost (s : PlayerState) (level : ℚ) : PlayerState :=
  let s := { s with bassBoost := level }
  match s.bassFilterRef, s.hasCtx with
  | some f, true =>
    let f := { f with gain := GainCtl.target (level * (3 / 2)) s.now (1 / 10) }
    { s with bassFilterRef := some f }
  | _, _ => s

/-- The events the single-threaded event loop can process: the user
handlers, the platform `onended` dispatch, an animation-frame callback
firing, prop changes, and the passage of wall-clock time. -/
inductive Event
  | play
  | pause
  | ended
  | tick
  | newBuffer (b : Option Buffer)
  | setBass (level : ℚ)
  | advance (dt : ℚ)

/-- When an event can be dispatched: `play`/`pause` are only clickable
when the matching button is rendered (the component shows Play iff
`!isPlaying`); `ended` only after the source was explicitly stopped or
its audio has run to its natural end, and at most once per source;
`newBuffer` only delivers decodable buffers (positive duration);
`setBass` stays in the slider's 0-10 range; time only moves forward. -/
def enabled (s : PlayerState) : Event → Bool
  | .play => !s.isPlaying
  | .pause => s.isPlaying
  | .ended =>
    match s.sourceRef with
    | some src =>
      !src.endedFired &&
        (src.stopped ||
          decide (src.startedAtWall + (src.buffer.duration - src.startOffset) ≤ s.now))
    | none => false
  | .tick => true
  | .newBuffer b =>
    match b with
    | some buf => decide (0 < buf.duration)
    | none => true
  | .setBass level => decide (0 ≤ level) && decide (level ≤ 10)
  | .advance dt => decide (0 ≤ dt)

/-- Effect of one event on the state. -/
def step (s : PlayerState) : Event → PlayerState
  | .play => playAudio s
  | .pause => pauseAudio s
  | .ended => onEnded s
  | .tick => (drawTick s).1
  | .newBuffer b => onNewBuffer s b
  | .setBass level => setBassBoost s level
  | .advance dt => { s with now := s.now + dt }

/-- Run a sequence of events. -/
def runTrace (s : PlayerState) : List Event → PlayerState
  | [] => s
  | e :: es => runTrace (step s e) es

/-- A sequence of events each of which was dispatchable when reached. -/
def legalTrace (s : PlayerState) : List Event → Bool
  | [] => true
  | e :: es => enabled s e && legalTrace (step s e) es

/-- The component freshly mounted: `isPlaying` starts `false`, all node
refs `null`, `startTimeRef`/`pausedTimeRef`/`animationFrameRef` start 0,
`bassBoost` defaults to 0. -/
def initState (b : Option Buffer) (ctx : Bool) : PlayerState :=
  { audioBuffer := b, hasCtx := ctx, ctxRunning := true, now := 0,
    isPlaying := false, sourceRef := none, bassFilterRef := none,
    analyserRef := none, startTimeRef := 0, pausedTimeRef := 0,
    animationFrameRef := 0, framePending := false, nextFrameId := 1,
    hasCanvas := true, bassBoost := 0, renderCount := 0 }

/-- The offset bookkeeping invariant: the stored paused offset is
non-negative, the start reference never lies in the future while
playing, and any decoded buffer has positive duration. -/
def Inv (s : PlayerState) : Prop :=
  0 ≤ s.pausedTimeRef ∧
  (s.isPlaying = true → s.startTimeRef ≤ s.now) ∧
  (∀ b, s.audioBuffer = some b → 0 < b.duration)

/-- A 5.0-second buffer, as in the spec's pause/resume scenario. -/
def buf5 : Buffer := ⟨5⟩

/-- A 3.0-second buffer, used as a replacement generation result. -/
def buf3 : Buffer := ⟨3⟩

/-- Fresh component with the 5.0-second buffer and a live context. -/
def s5 : PlayerState := initState (some buf5) true

/-! ### Arithmetic facts about `jsMod` -/

theorem jsMod_eq_fract (a b : ℚ) (hb : b ≠ 0) :
    jsMod a b = b * Int.fract (a / b) := by
  unfold jsMod Int.fract
  field_simp

theorem jsMod_nonneg (a b : ℚ) (hb : 0 < b) : 0 ≤ jsMod a b := by
  rw [jsMod_eq_fract a b hb.ne']
  exact mul_nonneg hb.le (Int.fract_nonneg _)

theorem jsMod_lt (a b : ℚ) (hb : 0 < b) : jsMod a b < b := by
  rw [jsMod_eq_fract a b hb.ne']
  calc b * Int.fract (a / b) < b * 1 :=
        (mul_lt_mul_left hb).2 (Int.fract_lt_one _)
    _ = b := mul_one b

theorem jsMod_eq_self (a b : ℚ) (h0 : 0 ≤ a) (hab : a < b) : jsMod a b = a := by
  have hb : 0 < b := lt_of_le_of_lt h0 hab
  have hfloor : ⌊a / b⌋ = 0 := by
    rw [Int.floor_eq_zero_iff]
    constructor
    · exact div_nonneg h0 hb.le
    · rw [div_lt_one hb]
      exact hab
  simp [jsMod, hfloor]

theorem jsMod_zero (b : ℚ) : jsMod 0 b = 0 := by
  simp [jsMod]

/-! ### Which fields each operation touches -/

theorem visualize_fields (s : PlayerState) :
    (visualize s).audioBuffer = s.audioBuffer ∧
    (visualize s).hasCtx = s.hasCtx ∧
    (visualize s).now = s.now ∧
    (visualize s).isPlaying = s.isPlaying ∧
    (visualize s).sourceRef = s.sourceRef ∧
    (visualize s).bassFilterRef = s.bassFilterRef ∧
    (visualize s).analyserRef = s.analyserRef ∧
    (visualize s).startTimeRef = s.startTimeRef ∧
    (visualize s).pausedTimeRef = s.pausedTimeRef ∧
    (visualize s).hasCanvas = s.hasCanvas ∧
    (visualize s).bassBoost = s.bassBoost := by
  unfold visualize drawBody scheduleFrame
  repeat' split
  all_goals simp_all

theorem visualize_audioBuffer (s : PlayerState) :
    (visualize s).audioBuffer = s.audioBuffer := (visualize_fields s).1

theorem visualize_hasCtx (s : PlayerState) :
    (visualize s).hasCtx = s.hasCtx := (visualize_fields s).2.1

theorem visualize_now (s : PlayerState) :
    (visualize s).now = s.now := (visualize_fields s).2.2.1

theorem visualize_isPlaying (s : PlayerState) :
    (visualize s).isPlaying = s.isPlaying := (visualize_fields s).2.2.2.1

theorem visualize_sourceRef (s : PlayerState) :
    (visualize s).sourceRef = s.sourceRef := (visualize_fields s).2.2.2.2.1

theorem visualize_bassFilterRef (s : PlayerState) :
    (visualize s).bassFilterRef = s.bassFilterRef :=
  (visualize_fields s).2.2.2.2.2.1

theorem visualize_analyserRef (s : PlayerState) :
    (visualize s).analyserRef = s.analyserRef :=
  (visualize_fields s).2.2.2.2.2.2.1

theorem visualize_startTimeRef (s : PlayerState) :
    (visualize s).startTimeRef = s.startTimeRef :=
  (visualize_fields s).2.2.2.2.2.2.2.1

theorem visualize_pausedTimeRef (s : PlayerState) :
    (visualize s).pausedTimeRef = s.pausedTimeRef :=
  (visualize_fields s).2.2.2.2.2.2.2.2.1

theorem visualize_bassBoost (s : PlayerState) :
    (visualize s).bassBoost = s.bassBoost :=
  (visualize_fields s).2.2.2.2.2.2.2.2.2.2

theorem playAudio_ready (s : PlayerState) (buf : Buffer)
    (hb : s.audioBuffer = some buf) (hc : s.hasCtx = true) :
    (playAudio s).sourceRef =
      some { buffer := buf, startOffset := jsMod s.pausedTimeRef buf.duration,
             startedAtWall := s.now, stopped := false, disconnected := false,
             endedFired := false } ∧
    (playAudio s).bassFilterRef =
      some { kind := .lowshelf, frequency := 200,
             gain := .value (s.bassBoost * (3 / 2)), disconnected := false } ∧
    (playAudio s).analyserRef = some { fftSize := 256, disconnected := false } ∧
    (playAudio s).isPlaying = true ∧
    (playAudio s).startTimeRef = s.now - jsMod s.pausedTimeRef buf.duration ∧
    (playAudio s).pausedTimeRef = s.pausedTimeRef ∧
    (playAudio s).audioBuffer = some buf ∧
    (playAudio s).now = s.now ∧
    (playAudio s).hasCtx = true ∧
    (playAudio s).bassBoost = s.bassBoost := by
  unfold playAudio
  rw [hb, hc]
  simp [visualize_audioBuffer, visualize_hasCtx, visualize_now,
        visualize_isPlaying, visualize_sourceRef, visualize_bassFilterRef,
        visualize_analyserRef, visualize_startTimeRef, visualize_pausedTimeRef,
        visualize_bassBoost, hb]

theorem pauseAudio_run (s : PlayerState) (src : SourceNode)
    (hs : s.sourceRef = some src) (hp : s.isPlaying = true)
    (hc : s.hasCtx = true) :
    (pauseAudio s).sourceRef = some { src with stopped := true, disconnected := true } ∧
    (pauseAudio s).pausedTimeRef = s.now - s.startTimeRef ∧
    (pauseAudio s).isPlaying = false ∧
    (pauseAudio s).bassFilterRef = s.bassFilterRef ∧
    (pauseAudio s).analyserRef = s.analyserRef ∧
    (pauseAudio s).audioBuffer = s.audioBuffer ∧
    (pauseAudio s).now = s.now ∧
    (pauseAudio s).hasCtx = s.hasCtx ∧
    (pauseAudio s).startTimeRef = s.startTimeRef ∧
    (s.animationFrameRef ≠ 0 → (pauseAudio s).framePending = false) ∧
    (s.animationFrameRef = 0 → (pauseAudio s).framePending = s.framePending) := by
  unfold pauseAudio
  rw [hs, hp, hc]
  by_cases haf : s.animationFrameRef = 0 <;> simp [haf]

theorem stopAudio_fields (s : PlayerState) :
    (stopAudio s).isPlaying = false ∧
    (stopAudio s).pausedTimeRef = 0 ∧
    (stopAudio s).audioBuffer = s.audioBuffer ∧
    (stopAudio s).now = s.now ∧
    (stopAudio s).hasCtx = s.hasCtx ∧
    (stopAudio s).startTimeRef = s.startTimeRef ∧
    (stopAudio s).bassFilterRef = s.bassFilterRef ∧
    (stopAudio s).analyserRef = s.analyserRef ∧
    (stopAudio s).bassBoost = s.bassBoost ∧
    (∀ src, s.sourceRef = some src →
      (stopAudio s).sourceRef =
        some { src with stopped := true, disconnected := true }) ∧
    (s.sourceRef = none → (stopAudio s).sourceRef = none) := by
  unfold stopAudio sourceStopCmd
  rcases hsr : s.sourceRef with _ | src
  · by_cases haf : s.animationFrameRef = 0 <;> simp [hsr, haf]
  · by_cases hst : src.stopped <;> by_cases haf : s.animationFrameRef = 0 <;>
      simp [hsr, hst, haf]

theorem onEnded_run (s : PlayerState) (src : SourceNode)
    (hs : s.sourceRef = some src) :
    (src.buffer.duration ≤ s.now - s.startTimeRef →
      (onEnded s).isPlaying = false ∧ (onEnded s).pausedTimeRef = 0) ∧
    (¬ src.buffer.duration ≤ s.now - s.startTimeRef →
      (onEnded s).isPlaying = s.isPlaying ∧
      (onEnded s).pausedTimeRef = s.pausedTimeRef) ∧
    (onEnded s).audioBuffer = s.audioBuffer ∧
    (onEnded s).now = s.now ∧
    (onEnded s).hasCtx = s.hasCtx ∧
    (onEnded s).startTimeRef = s.startTimeRef ∧
    (onEnded s).framePending = s.framePending ∧
    (onEnded s).bassFilterRef = s.bassFilterRef ∧
    (onEnded s).analyserRef = s.analyserRef := by
  unfold onEnded
  rw [hs]
  by_cases hd : src.buffer.duration ≤ s.now - s.startTimeRef <;> simp [hd]

theorem drawTick_fields (s : PlayerState) :
    (drawTick s).1.audioBuffer = s.audioBuffer ∧
    (drawTick s).1.now = s.now ∧
    (drawTick s).1.hasCtx = s.hasCtx ∧
    (drawTick s).1.isPlaying = s.isPlaying ∧
    (drawTick s).1.startTimeRef = s.startTimeRef ∧
    (drawTick s).1.pausedTimeRef = s.pausedTimeRef ∧
    (drawTick s).1.sourceRef = s.sourceRef ∧
    (drawTick s).1.bassFilterRef = s.bassFilterRef ∧
    (drawTick s).1.analyserRef = s.analyserRef := by
  unfold drawTick drawBody scheduleFrame
  by_cases hfp : s.framePending <;> by_cases hip : s.isPlaying = false <;>
    rcases har : s.analyserRef with _ | a <;> simp [hfp, hip, har]

theorem setBassBoost_fields (s : PlayerState) (level : ℚ) :
    (setBassBoost s level).audioBuffer = s.audioBuffer ∧
    (setBassBoost s level).now = s.now ∧
    (setBassBoost s level).hasCtx = s.hasCtx ∧
    (setBassBoost s level).isPlaying = s.isPlaying ∧
    (setBassBoost s level).startTimeRef = s.startTimeRef ∧
    (setBassBoost s level).pausedTimeRef = s.pausedTimeRef ∧
    (setBassBoost s level).sourceRef = s.sourceRef ∧
    (setBassBoost s level).framePending = s.framePending := by
  unfold setBassBoost
  rcases hbf : s.bassFilterRef with _ | f <;> cases hct : s.hasCtx <;>
    simp [hbf, hct]

theorem onNewBuffer_fields (s : PlayerState) (b : Option Buffer) :
    (onNewBuffer s b).isPlaying = false ∧
    (onNewBuffer s b).pausedTimeRef = 0 ∧
    (onNewBuffer s b).audioBuffer = b ∧
    (onNewBuffer s b).now = s.now ∧
    (onNewBuffer s b).hasCtx = s.hasCtx ∧
    (onNewBuffer s b).startTimeRef = s.startTimeRef ∧
    (onNewBuffer s b).bassBoost = s.bassBoost := by
  have h := stopAudio_fields { s with audioBuffer := b }
  unfold onNewBuffer
  simp_all

theorem playAudio_skip (s : PlayerState)
    (h : s.audioBuffer = none ∨ s.hasCtx = false) :
    playAudio s = s := by
  unfold playAudio
  rcases h with h | h
  · rw [h]
  · rw [h]
    rcases s.audioBuffer with _ | b <;> rfl

theorem pauseAudio_skip (s : PlayerState)
    (h : s.sourceRef = none ∨ s.isPlaying = false ∨ s.hasCtx = false) :
    pauseAudio s = s := by
  unfold pauseAudio
  rcases h with h | h | h
  · rw [h]
  · rw [h]
    rcases s.sourceRef with _ | src <;> rfl
  · rw [h]
    rcases s.sourceRef with _ | src <;> rcases s.isPlaying with _ | _ <;> rfl

theorem onEnded_skip (s : PlayerState) (h : s.sourceRef = none) :
    onEnded s = s := by
  unfold onEnded
  rw [h]

/-! ### Claims -/

/-- Claim C8: calling `play()` with no buffer or no audio context is a
no-op that never crashes: the state (including `isPlaying`,
`pausedTimeRef` and every stored reference) is returned unchanged. -/
theorem playAudio_notReady_noop (s : PlayerState)
    (h : s.audioBuffer = none ∨ s.hasCtx = false) :
    playAudio s = s :=
  playAudio_skip s h

/-- Claim C8 witness: `play()` on a fresh component with no buffer
changes nothing. -/
theorem playAudio_notReady_noop_witness :
    playAudio (initState none true) = initState none true :=
  playAudio_notReady_noop (initState none true) (Or.inl rfl)

/-- Claim C10: calling `pause()` when no source node exists or
`isPlaying` is false is a complete no-op: nothing is stopped,
disconnected or cancelled, and the whole state is unchanged. -/
theorem pauseAudio_notPlaying_noop (s : PlayerState)
    (h : s.sourceRef = none ∨ s.isPlaying = false) :
    pauseAudio s = s :=
  pauseAudio_skip s (h.elim Or.inl (fun h' => Or.inr (Or.inl h')))

/-- Claim C10 witness: `pause()` on the fresh (not yet playing)
component with the 5-second buffer changes nothing. -/
theorem pauseAudio_notPlaying_noop_witness : pauseAudio s5 = s5 :=
  pauseAudio_notPlaying_noop s5 (Or.inr rfl)

/-- Claim C9: `stop()` twice in a row produces no error and leaves the
post-stop state (`isPlaying` false, `pausedTimeRef` 0) unchanged: the
second `stopAudio` is absorbed (the halt command on the already-halted
source reports an error, which the `try/catch` swallows) and the state
is exactly the state after the first `stopAudio`. -/
theorem stopAudio_idempotent (s : PlayerState) :
    stopAudio (stopAudio s) = stopAudio s ∧
    (stopAudio s).isPlaying = false ∧
    (stopAudio s).pausedTimeRef = 0 := by
  refine ⟨?_, (stopAudio_fields s).1, (stopAudio_fields s).2.1⟩
  unfold stopAudio sourceStopCmd
  rcases s with ⟨ab, hc, cr, now, ip, sr, bf, ar, st, pt, af, fp, nf, hcv, bb, rc⟩
  rcases sr with _ | src
  · by_cases haf : af = 0 <;> simp [haf]
  · rcases src with ⟨sb, so, sw, sst, sd, se⟩
    by_cases haf : af = 0 <;> cases sst <;> simp [haf]

/-- Claim C1: for every buffer, `play()` then `pause()` then `play()`
resumes at the captured offset, not from zero: starting from a fresh
offset (`pausedTimeRef = 0`), playing, letting `dt` seconds pass
(`0 ≤ dt < duration`) and pausing captures `pausedTimeRef = dt`
(elapsed = now − start reference), and the next `play()` starts its
source at offset `pausedTimeRef mod duration = dt`. -/
theorem play_pause_play_resumes (s : PlayerState) (buf : Buffer) (dt : ℚ)
    (hb : s.audioBuffer = some buf) (hc : s.hasCtx = true)
    (hp0 : s.pausedTimeRef = 0) (hdt0 : 0 ≤ dt)
    (hdtd : dt < buf.duration) :
    (pauseAudio (step (playAudio s) (Event.advance dt))).pausedTimeRef = dt ∧
    ∃ src,
      (playAudio (pauseAudio (step (playAudio s) (Event.advance dt)))).sourceRef
        = some src ∧ src.startOffset = dt := by
  obtain ⟨h1, -, -, h4, h5, -, h7, h8, h9, -⟩ := playAudio_ready s buf hb hc
  have hj0 : jsMod s.pausedTimeRef buf.duration = 0 := by
    rw [hp0]; exact jsMod_zero _
  have hs2 : step (playAudio s) (Event.advance dt) =
      { playAudio s with now := (playAudio s).now + dt } := rfl
  obtain ⟨p1, p2, p3, -, -, p6, p7, p8, -, -⟩ :=
    pauseAudio_run { playAudio s with now := (playAudio s).now + dt } _
      (by simpa using h1) (by simpa using h4) (by simpa using h9)
  have hpt : (pauseAudio { playAudio s with now := (playAudio s).now + dt
      }).pausedTimeRef = dt := by
    rw [p2]
    simp only [h5, h8, hj0]
    ring
  refine ⟨by rw [hs2]; exact hpt, ?_⟩
  obtain ⟨q1, -, -, -, -, -, -, -, -, -⟩ :=
    playAudio_ready (pauseAudio { playAudio s with now := (playAudio s).now + dt }) buf
      (by rw [p6]; simpa using h7) (by rw [p8]; simpa using h9)
  rw [hs2]
  refine ⟨_, q1, ?_⟩
  rw [hpt]
  exact jsMod_eq_self dt buf.duration hdt0 hdtd

/-- Claim C1 witness: with the 5.0-second buffer, `play()` at t = 0 and
`pause()` at t = 2.0 gives `pausedTimeRef = 2`, and the next `play()`
starts its source at offset 2.0 s. -/
theorem play_pause_play_resumes_witness :
    (pauseAudio (step (playAudio s5) (Event.advance 2))).pausedTimeRef = 2 ∧
    ∃ src,
      (playAudio (pauseAudio (step (playAudio s5) (Event.advance 2)))).sourceRef
        = some src ∧ src.startOffset = 2 :=
  play_pause_play_resumes s5 buf5 2 rfl rfl rfl (by norm_num)
    (by norm_num [buf5])

/-- Claim C2: for every bass level L in [0, 10], the low-shelf filter's
gain is `1.5 × L` dB: a fresh graph sets the new filter's initial gain
directly to `L * 1.5` (so `setBassBoost 10` then `play()` yields exactly
15 dB), and changing L with a live filter retargets the same filter's
gain via `setTargetAtTime` (time constant 0.1 s) while the source node
and `isPlaying` are left untouched. -/
theorem bassBoost_gain_mapping :
    (∀ (s : PlayerState) (buf : Buffer) (level : ℚ),
      s.audioBuffer = some buf → s.hasCtx = true → s.bassBoost = level →
      0 ≤ level → level ≤ 10 →
      (playAudio s).bassFilterRef =
        some { kind := .lowshelf, frequency := 200,
               gain := .value (level * (3 / 2)), disconnected := false }) ∧
    (∀ (s : PlayerState) (f : FilterNode) (level : ℚ),
      s.bassFilterRef = some f → s.hasCtx = true → 0 ≤ level → level ≤ 10 →
      (setBassBoost s level).bassFilterRef =
        some { f with gain := .target (level * (3 / 2)) s.now (1 / 10) } ∧
      (setBassBoost s level).sourceRef = s.sourceRef ∧
      (setBassBoost s level).isPlaying = s.isPlaying) ∧
    (playAudio (setBassBoost s5 10)).bassFilterRef =
      some { kind := .lowshelf, frequency := 200, gain := .value 15,
             disconnected := false } := by
  refine ⟨?_, ?_, ?_⟩
  · intro s buf level hb hc hl h0 h10
    obtain ⟨-, h2, -, -, -, -, -, -, -, -⟩ := playAudio_ready s buf hb hc
    rw [h2, hl]
  · intro s f level hf hc h0 h10
    unfold setBassBoost
    simp [hf, hc]
  · norm_num [setBassBoost, playAudio, s5, initState, buf5, visualize,
      drawBody, scheduleFrame, jsMod]

/-- Claim C2 witness: on the live session started by `play()` on the
fresh component (whose filter was created with gain `0 * 1.5 = 0`),
`setBassBoost 7` retargets that filter's gain to `10.5` dB with time
constant 0.1 s starting at the current time 0, leaving the source and
`isPlaying` unchanged. -/
theorem bassBoost_gain_mapping_witness :
    (setBassBoost (playAudio s5) 7).bassFilterRef =
      some { kind := FilterKind.lowshelf, frequency := 200,
             gain := GainCtl.target (21 / 2) 0 (1 / 10),
             disconnected := false } ∧
    (setBassBoost (playAudio s5) 7).sourceRef = (playAudio s5).sourceRef ∧
    (setBassBoost (playAudio s5) 7).isPlaying = (playAudio s5).isPlaying := by
  have hf : (playAudio s5).bassFilterRef =
      some { kind := FilterKind.lowshelf, frequency := 200,
             gain := GainCtl.value 0, disconnected := false } := by
    norm_num [playAudio, s5, initState, buf5, visualize, drawBody,
      scheduleFrame, jsMod]
  have hnow : (playAudio s5).now = 0 := by
    norm_num [playAudio, s5, initState, buf5, visualize, drawBody,
      scheduleFrame, jsMod]
  have h := bassBoost_gain_mapping.2.1 (playAudio s5)
    { kind := FilterKind.lowshelf, frequency := 200,
      gain := GainCtl.value 0, disconnected := false } 7 hf
    (by norm_num [playAudio, s5, initState, buf5, visualize, drawBody,
      scheduleFrame, jsMod]) (by norm_num) (by norm_num)
  rw [hnow] at h
  norm_num at h
  exact h

/-- Claim C3: the `onended` callback fires on both natural completion
and explicit stop; it treats the event as natural completion iff the
recomputed elapsed time (now − start reference) is at least the
captured buffer's duration, in which case it sets `isPlaying` false and
resets `pausedTimeRef` to 0, and otherwise changes no playback state. -/
theorem onEnded_natural_completion (s : PlayerState) (src : SourceNode)
    (hs : s.sourceRef = some src) :
    (src.buffer.duration ≤ s.now - s.startTimeRef →
      (onEnded s).isPlaying = false ∧ (onEnded s).pausedTimeRef = 0) ∧
    (¬ src.buffer.duration ≤ s.now - s.startTimeRef →
      (onEnded s).isPlaying = s.isPlaying ∧
      (onEnded s).pausedTimeRef = s.pausedTimeRef ∧
      (onEnded s).startTimeRef = s.startTimeRef ∧
      (onEnded s).framePending = s.framePending ∧
      (onEnded s).bassFilterRef = s.bassFilterRef ∧
      (onEnded s).analyserRef = s.analyserRef) := by
  obtain ⟨h1, h2, -, -, -, h6, h7, h8, h9⟩ := onEnded_run s src hs
  exact ⟨h1, fun h => ⟨(h2 h).1, (h2 h).2, h6, h7, h8, h9⟩⟩

/-- Claim C3 witness: with the 5.0-second buffer played at t = 0, at
t = 5 the elapsed time equals the duration, so the callback transitions
to Stopped and resets the offset to 0. -/
theorem onEnded_natural_completion_witness :
    (onEnded (step (playAudio s5) (Event.advance 5))).isPlaying = false ∧
    (onEnded (step (playAudio s5) (Event.advance 5))).pausedTimeRef = 0 :=
  (onEnded_natural_completion (step (playAudio s5) (Event.advance 5))
    { buffer := buf5, startOffset := 0, startedAtWall := 0,
      stopped := false, disconnected := false, endedFired := false }
    (by norm_num [step, playAudio, s5, initState, buf5, visualize, drawBody,
      scheduleFrame, jsMod])).1
    (by norm_num [step, playAudio, s5, initState, buf5, visualize, drawBody,
      scheduleFrame, jsMod])

/-- Claim C4 counterexample: after the legal trace `play(); pause()` on
the fresh component, teardown has run (`isPlaying` is false and the
source node is stopped and disconnected), yet the session's bass filter
and analyser are still connected (`disconnected = false`): `pauseAudio`
only calls `sourceRef.current.disconnect()` and never disconnects the
filter or the analyser, so not every node of the graph is disconnected
on the teardown path. -/
theorem teardown_disconnects_counterexample :
    legalTrace s5 [Event.play, Event.pause] = true ∧
    (runTrace s5 [Event.play, Event.pause]).isPlaying = false ∧
    (runTrace s5 [Event.play, Event.pause]).sourceRef =
      some { buffer := buf5, startOffset := 0, startedAtWall := 0,
             stopped := true, disconnected := true, endedFired := false } ∧
    (runTrace s5 [Event.play, Event.pause]).bassFilterRef =
      some { kind := .lowshelf, frequency := 200, gain := .value 0,
             disconnected := false } ∧
    (runTrace s5 [Event.play, Event.pause]).analyserRef =
      some { fftSize := 256, disconnected := false } := by
  norm_num [legalTrace, runTrace, step, enabled, playAudio, pauseAudio, s5,
    initState, buf5, visualize, drawBody, scheduleFrame, jsMod]

/-- Claim C4 amended: on every teardown path (pause, and stop — the
path buffer replacement also goes through) the session's SOURCE node is
stopped and disconnected before another session's graph can be created,
but the bass-shelf filter and the analyser of the session are left
untouched (not disconnected). -/
theorem teardown_disconnects_source_only :
    (∀ (s : PlayerState) (src : SourceNode),
      s.sourceRef = some src → s.isPlaying = true → s.hasCtx = true →
      (pauseAudio s).sourceRef =
        some { src with stopped := true, disconnected := true } ∧
      (pauseAudio s).bassFilterRef = s.bassFilterRef ∧
      (pauseAudio s).analyserRef = s.analyserRef) ∧
    (∀ (s : PlayerState) (src : SourceNode),
      s.sourceRef = some src →
      (stopAudio s).sourceRef =
        some { src with stopped := true, disconnected := true } ∧
      (stopAudio s).bassFilterRef = s.bassFilterRef ∧
      (stopAudio s).analyserRef = s.analyserRef) := by
  constructor
  · intro s src hs hp hc
    obtain ⟨p1, -, -, p4, p5, -, -, -, -, -, -⟩ := pauseAudio_run s src hs hp hc
    exact ⟨p1, p4, p5⟩
  · intro s src hs
    obtain ⟨-, -, -, -, -, -, q7, q8, -, q10, -⟩ := stopAudio_fields s
    exact ⟨q10 src hs, q7, q8⟩

/-- Claim C4 amended witness: pausing the session started on the fresh
component stops and disconnects its source while leaving its filter and
analyser references untouched. -/
theorem teardown_disconnects_source_only_witness :
    (pauseAudio (playAudio s5)).sourceRef =
      some { buffer := buf5, startOffset := 0, startedAtWall := 0,
             stopped := true, disconnected := true, endedFired := false } ∧
    (pauseAudio (playAudio s5)).bassFilterRef = (playAudio s5).bassFilterRef ∧
    (pauseAudio (playAudio s5)).analyserRef = (playAudio s5).analyserRef :=
  teardown_disconnects_source_only.1 (playAudio s5)
    { buffer := buf5, startOffset := 0, startedAtWall := 0,
      stopped := false, disconnected := false, endedFired := false }
    (by norm_num [playAudio, s5, initState, buf5, visualize, drawBody,
      scheduleFrame, jsMod])
    (by norm_num [playAudio, s5, initState, buf5, visualize, drawBody,
      scheduleFrame, jsMod])
    (by norm_num [playAudio, s5, initState, buf5, visualize, drawBody,
      scheduleFrame, jsMod])

/-- Claim C5: the visualization loop never executes a render tick while
`isPlaying` is false (a tick that fires then neither renders nor
reschedules), and `pause()` stops the loop within one frame tick: after
`pauseAudio` the pending frame is cancelled, `isPlaying` is false, and
any subsequent tick renders nothing and schedules nothing. -/
theorem visualization_stops_on_pause :
    (∀ s : PlayerState, s.isPlaying = false →
      (drawTick s).2 = false ∧ (drawTick s).1.framePending = false ∧
      (drawTick s).1.renderCount = s.renderCount) ∧
    (∀ (s : PlayerState) (src : SourceNode),
      s.sourceRef = some src → s.isPlaying = true → s.hasCtx = true →
      (s.framePending = true → s.animationFrameRef ≠ 0) →
      (pauseAudio s).isPlaying = false ∧
      (pauseAudio s).framePending = false ∧
      (drawTick (pauseAudio s)).2 = false ∧
      (drawTick (pauseAudio s)).1.framePending = false) := by
  have tick : ∀ s : PlayerState, s.isPlaying = false →
      (drawTick s).2 = false ∧ (drawTick s).1.framePending = false ∧
      (drawTick s).1.renderCount = s.renderCount := by
    intro s h
    unfold drawTick drawBody
    by_cases hfp : s.framePending <;> simp [hfp, h]
  refine ⟨tick, ?_⟩
  intro s src hs hp hc hframe
  obtain ⟨-, -, p3, -, -, -, -, -, -, p10, p11⟩ := pauseAudio_run s src hs hp hc
  have hfp : (pauseAudio s).framePending = false := by
    by_cases haf : s.animationFrameRef = 0
    · rw [p11 haf]
      rcases hsp : s.framePending with _ | _
      · rfl
      · exact absurd haf (hframe hsp)
    · exact p10 haf
  exact ⟨p3, hfp, (tick _ p3).1, (tick _ p3).2.1⟩

/-- Claim C5 witness: pausing the session started on the fresh
component cancels its pending animation frame, and the next tick
neither renders nor schedules. -/
theorem visualization_stops_on_pause_witness :
    (pauseAudio (playAudio s5)).isPlaying = false ∧
    (pauseAudio (playAudio s5)).framePending = false ∧
    (drawTick (pauseAudio (playAudio s5))).2 = false ∧
    (drawTick (pauseAudio (playAudio s5))).1.framePending = false :=
  visualization_stops_on_pause.2 (playAudio s5)
    { buffer := buf5, startOffset := 0, startedAtWall := 0,
      stopped := false, disconnected := false, endedFired := false }
    (by norm_num [playAudio, s5, initState, buf5, visualize, drawBody,
      scheduleFrame, jsMod])
    (by norm_num [playAudio, s5, initState, buf5, visualize, drawBody,
      scheduleFrame, jsMod])
    (by norm_num [playAudio, s5, initState, buf5, visualize, drawBody,
      scheduleFrame, jsMod])
    (by norm_num [playAudio, s5, initState, buf5, visualize, drawBody,
      scheduleFrame, jsMod])

/-- Claim C7: when a new buffer arrives, the `[audioBuffer]` effect
forces an implicit stop before the buffer is used: any active source is
stopped (tolerating a halt on an already-halted source) and
disconnected, `pausedTimeRef` is reset to 0, the controller is Stopped
(`isPlaying` false), and the first `play()` on the new buffer starts its
source at offset 0. -/
theorem newBuffer_forces_stop (s : PlayerState) (buf : Buffer)
    (hc : s.hasCtx = true) :
    (onNewBuffer s (some buf)).isPlaying = false ∧
    (onNewBuffer s (some buf)).pausedTimeRef = 0 ∧
    (onNewBuffer s (some buf)).audioBuffer = some buf ∧
    (∀ src, s.sourceRef = some src →
      (onNewBuffer s (some buf)).sourceRef =
        some { src with stopped := true, disconnected := true }) ∧
    ∃ src, (playAudio (onNewBuffer s (some buf))).sourceRef = some src ∧
      src.startOffset = 0 := by
  obtain ⟨n1, n2, n3, -, n5, -, -⟩ := onNewBuffer_fields s (some buf)
  refine ⟨n1, n2, n3, ?_, ?_⟩
  · intro src hs
    obtain ⟨-, -, -, -, -, -, -, -, -, q10, -⟩ :=
      stopAudio_fields { s with audioBuffer := some buf }
    unfold onNewBuffer
    simpa using q10 src (by simpa using hs)
  · obtain ⟨q1, -, -, -, -, -, -, -, -, -⟩ :=
      playAudio_ready (onNewBuffer s (some buf)) buf n3 (by rw [n5]; exact hc)
    refine ⟨_, q1, ?_⟩
    rw [n2]
    exact jsMod_zero _

/-- Claim C7 witness: a 3.0-second replacement buffer arriving while
the 5.0-second session is live stops and disconnects the live source,
resets the offset, leaves the controller Stopped, and the next `play()`
starts the new buffer's source at offset 0. -/
theorem newBuffer_forces_stop_witness :
    (onNewBuffer (playAudio s5) (some buf3)).isPlaying = false ∧
    (onNewBuffer (playAudio s5) (some buf3)).pausedTimeRef = 0 ∧
    (onNewBuffer (playAudio s5) (some buf3)).audioBuffer = some buf3 ∧
    (∀ src, (playAudio s5).sourceRef = some src →
      (onNewBuffer (playAudio s5) (some buf3)).sourceRef =
        some { src with stopped := true, disconnected := true }) ∧
    ∃ src,
      (playAudio (onNewBuffer (playAudio s5) (some buf3))).sourceRef =
        some src ∧ src.startOffset = 0 :=
  newBuffer_forces_stop (playAudio s5) buf3
    (by norm_num [playAudio, s5, initState, buf5, visualize, drawBody,
      scheduleFrame, jsMod])

/-- Claim C6 counterexample: the trace `play()`, five seconds pass,
`pause()` is a legal event sequence — at t = 5 the 5.0-second audio has
reached its natural end, but the `onended` callback has not yet been
dispatched by the event loop, so `isPlaying` is still true, the Pause
button is still rendered, and `pauseAudio`'s guard passes — and it
stores `pausedTimeRef = 5`, which is NOT strictly less than the
buffer's duration 5.  (The `% duration` applied on the next `play()` is
what brings the start offset back into range.) -/
theorem pausedOffset_range_counterexample :
    legalTrace s5 [Event.play, Event.advance 5, Event.pause] = true ∧
    (runTrace s5 [Event.play, Event.advance 5, Event.pause]).audioBuffer =
      some buf5 ∧
    (runTrace s5 [Event.play, Event.advance 5, Event.pause]).pausedTimeRef =
      5 ∧
    ¬ (runTrace s5 [Event.play, Event.advance 5, Event.pause]).pausedTimeRef
        < buf5.duration := by
  norm_num [legalTrace, runTrace, step, enabled, playAudio, pauseAudio, s5,
    initState, buf5, visualize, drawBody, scheduleFrame, jsMod]

/-- Claim C6 amended: after every dispatchable operation the stored
paused offset stays non-negative (it is NOT always < duration: a pause
processed after the natural end-time but before the `onended` dispatch
stores an offset ≥ duration), and the offset actually passed to the
source's `start` command is `pausedTimeRef mod duration`, which always
lies in [0, duration). -/
theorem pausedOffset_nonneg_and_start_in_range :
    (∀ (s : PlayerState) (e : Event),
      Inv s → enabled s e = true → Inv (step s e)) ∧
    (∀ (s : PlayerState) (buf : Buffer),
      Inv s → s.audioBuffer = some buf → s.hasCtx = true →
      ∃ src, (playAudio s).sourceRef = some src ∧
        src.startOffset = jsMod s.pausedTimeRef buf.duration ∧
        0 ≤ src.startOffset ∧ src.startOffset < buf.duration) := by
  have startPart : ∀ (s : PlayerState) (buf : Buffer),
      Inv s → s.audioBuffer = some buf → s.hasCtx = true →
      ∃ src, (playAudio s).sourceRef = some src ∧
        src.startOffset = jsMod s.pausedTimeRef buf.duration ∧
        0 ≤ src.startOffset ∧ src.startOffset < buf.duration := by
    intro s buf hI hb hc
    obtain ⟨h1, -, -, -, -, -, -, -, -, -⟩ := playAudio_ready s buf hb hc
    have hd : 0 < buf.duration := hI.2.2 buf hb
    exact ⟨_, h1, rfl, jsMod_nonneg _ _ hd, jsMod_lt _ _ hd⟩
  refine ⟨?_, startPart⟩
  intro s e hI he
  obtain ⟨hI1, hI2, hI3⟩ := hI
  cases e with
  | play =>
    show Inv (playAudio s)
    rcases hb : s.audioBuffer with _ | buf
    · rw [playAudio_skip s (Or.inl hb)]
      exact ⟨hI1, hI2, hI3⟩
    · rcases hc : s.hasCtx with _ | _
      · rw [playAudio_skip s (Or.inr hc)]
        exact ⟨hI1, hI2, hI3⟩
      · obtain ⟨-, -, -, -, h5, h6, h7, h8, -, -⟩ := playAudio_ready s buf hb hc
        have hd : 0 < buf.duration := hI3 buf hb
        refine ⟨by rw [h6]; exact hI1, ?_, ?_⟩
        · intro _
          rw [h5, h8]
          exact sub_le_self _ (jsMod_nonneg _ _ hd)
        · intro b hb'
          rw [h7] at hb'
          cases hb'
          exact hd
  | pause =>
    show Inv (pauseAudio s)
    rcases hsr : s.sourceRef with _ | src
    · rw [pauseAudio_skip s (Or.inl hsr)]
      exact ⟨hI1, hI2, hI3⟩
    · rcases hp : s.isPlaying with _ | _
      · rw [pauseAudio_skip s (Or.inr (Or.inl hp))]
        exact ⟨hI1, hI2, hI3⟩
      · rcases hc : s.hasCtx with _ | _
        · rw [pauseAudio_skip s (Or.inr (Or.inr hc))]
          exact ⟨hI1, hI2, hI3⟩
        · obtain ⟨-, p2, p3, -, -, p6, -, -, -, -, -⟩ :=
            pauseAudio_run s src hsr hp hc
          refine ⟨by rw [p2]; exact sub_nonneg.2 (hI2 hp), ?_, ?_⟩
          · intro h
            rw [p3] at h
            cases h
          · intro b hb'
            rw [p6] at hb'
            exact hI3 b hb'
  | ended =>
    show Inv (onEnded s)
    rcases hsr : s.sourceRef with _ | src
    · rw [onEnded_skip s hsr]
      exact ⟨hI1, hI2, hI3⟩
    · obtain ⟨e1, e2, e3, e4, -, e6, -, -, -⟩ := onEnded_run s src hsr
      by_cases hd : src.buffer.duration ≤ s.now - s.startTimeRef
      · refine ⟨by rw [(e1 hd).2], ?_, ?_⟩
        · intro h
          rw [(e1 hd).1] at h
          cases h
        · intro b hb'
          rw [e3] at hb'
          exact hI3 b hb'
      · refine ⟨by rw [(e2 hd).2]; exact hI1, ?_, ?_⟩
        · intro h
          rw [(e2 hd).1] at h
          rw [e4, e6]
          exact hI2 h
        · intro b hb'
          rw [e3] at hb'
          exact hI3 b hb'
  | tick =>
    show Inv (drawTick s).1
    obtain ⟨t1, t2, -, t4, t5, t6, -, -, -⟩ := drawTick_fields s
    refine ⟨by rw [t6]; exact hI1, ?_, ?_⟩
    · intro h
      rw [t4] at h
      rw [t5, t2]
      exact hI2 h
    · intro b hb'
      rw [t1] at hb'
      exact hI3 b hb'
  | newBuffer b =>
    show Inv (onNewBuffer s b)
    obtain ⟨n1, n2, n3, -, -, -, -⟩ := onNewBuffer_fields s b
    refine ⟨by rw [n2], ?_, ?_⟩
    · intro h
      rw [n1] at h
      cases h
    · intro b' hb'
      rw [n3] at hb'
      rcases b with _ | nb
      · cases hb'
      · cases hb'
        simpa [enabled] using he
  | setBass level =>
    show Inv (setBassBoost s level)
    obtain ⟨b1, b2, -, b4, b5, b6, -, -⟩ := setBassBoost_fields s level
    refine ⟨by rw [b6]; exact hI1, ?_, ?_⟩
    · intro h
      rw [b4] at h
      rw [b5, b2]
      exact hI2 h
    · intro b' hb'
      rw [b1] at hb'
      exact hI3 b' hb'
  | advance dt =>
    have hdt : (0 : ℚ) ≤ dt := by simpa [enabled] using he
    refine ⟨hI1, ?_, hI3⟩
    intro h
    have := hI2 h
    show s.startTimeRef ≤ s.now + dt
    linarith

/-- Claim C6 amended witness: the invariant holds on the fresh
component and is preserved by dispatching `play()` there, whose source
is started at offset `jsMod 0 5 = 0 ∈ [0, 5)`. -/
theorem pausedOffset_nonneg_and_start_in_range_witness :
    Inv (step s5 Event.play) ∧
    ∃ src, (playAudio s5).sourceRef = some src ∧
      src.startOffset = jsMod s5.pausedTimeRef buf5.duration ∧
      0 ≤ src.startOffset ∧ src.startOffset < buf5.duration := by
  have hI : Inv s5 := by
    refine ⟨by norm_num [s5, initState], by norm_num [s5, initState], ?_⟩
    intro b hb
    have : buf5 = b := by simpa [s5, initState] using hb
    rw [← this]
    norm_num [buf5]
  exact ⟨pausedOffset_nonneg_and_start_in_range.1 s5 Event.play hI rfl,
    pausedOffset_nonneg_and_start_in_range.2 s5 buf5 hI rfl rfl⟩

end LyricalStudio
